import Mathlib

/-
Verification of the committee daily-pipeline core against its specification.

Shallow embedding conventions:
- Python floats are modelled as rationals; the arithmetic the claims
  exercise (additions, divisions by constants, comparisons on small values)
  is exact in both models.
- A fallible fetcher is modelled by an explicit outcome: it either returns
  a pair of optional value and optional reason, or raises with a message.
- SQLite rows are records with optional fields; NULL is none.
- Python truthiness on strings and lists is modelled explicitly where the
  source relies on it (empty string and empty list are falsy).
-/

set_option maxHeartbeats 1000000
set_option maxRecDepth 4000

/-- Outcome of calling a single-value fetcher: it either returns a
pair of optional value and optional failure reason, or raises an
exception carrying a message string. -/
inductive FetchOutcome where
  | returns (value : Option ℚ) (reason : Option String)
  | raises (msg : String)
deriving DecidableEq, Repr

/-- Python `r or fallbackWord` for an optional string: empty and missing
strings are falsy and are replaced by the fallback word. -/
def orElseWord (r : Option String) (w : String) : String :=
  match r with
  | some s => if s = "" then w else s
  | none => w

/-- Embedding of `snapshot_builder._safe_value`.  The first argument is the
primary fetcher outcome; the second is the pair returned by the default
fetcher (the repository default, `FallbackProvider`, always returns a pair
and never raises).  Mirrors the source line by line:
on a present primary value return (value, none); on an absent value raise
`ValueError(reason or "unavailable")` into the handler; in the handler
return `float(fallback_value or 0.0)` and
`str(exc) if str(exc) else (fallback_reason or "unavailable")`. -/
def _safe_value (primary : FetchOutcome) (defaultPair : Option ℚ × Option String) :
    ℚ × Option String :=
  let handler : String → ℚ × Option String := fun excMsg =>
    let fallbackValue := defaultPair.1.getD 0
    let reason := if excMsg = "" then orElseWord defaultPair.2 "unavailable" else excMsg
    (fallbackValue, some reason)
  match primary with
  | .returns (some v) _ => (v, none)
  | .returns none reason => handler (orElseWord reason "unavailable")
  | .raises msg => handler msg

/-- Embedding of `FallbackProvider.get_usdkrw` (all single-value methods of
`FallbackProvider` return the same pair). -/
def FallbackProvider.get_usdkrw : Option ℚ × Option String :=
  (some 0, some "fallback used")

/-- Python `round(x, 3)` modelled over rationals (round to the nearest
thousandth; the tie-breaking convention differs from banker rounding but no
claim exercises a tie). -/
def round3 (x : ℚ) : ℚ := (round (x * 1000) : ℤ) / 1000

/-- Embedding of the liquidity accumulation inside
`snapshot_builder._compute_phase_two_signals`: start from 0.0 and add each
macro term only when its input is present. -/
def liquidity_score (dxy real_rate spread_2_10 : Option ℚ) : ℚ :=
  let s0 : ℚ := 0
  let s1 := match dxy with
    | some v => s0 + (100 - v) / 5
    | none => s0
  let s2 := match real_rate with
    | some v => s1 + (3/2 - v)
    | none => s1
  match spread_2_10 with
  | some v => s2 + v * 2
  | none => s2

/-- Embedding of the `liquidity_signal_score` entry of the dict returned by
`_compute_phase_two_signals`: the accumulated score rounded to 3 decimals. -/
def liquidity_signal_score (dxy real_rate spread_2_10 : Option ℚ) : ℚ :=
  round3 (liquidity_score dxy real_rate spread_2_10)

/-- One row of the `market_daily` table.  Every measured column is
nullable in the schema; NULL is `none`. -/
structure MarketDailyRow where
  date : String
  kospi_pct : Option ℚ
  kosdaq_pct : Option ℚ
  sp500_pct : Option ℚ
  nasdaq_pct : Option ℚ
  dow_pct : Option ℚ
  usdkrw : Option ℚ
  usdkrw_pct : Option ℚ
  us10y : Option ℚ
  vix : Option ℚ
deriving DecidableEq, Repr

/-- Embedding of `database.upsert_market_daily`: the row written for one
date.  The non-optional parameters mirror the Python signature, where
`kospi_pct .. usdkrw` are plain floats (always written as numbers) and only
`usdkrw_pct`, `us10y`, `vix` are optional (written as NULL when `None`). -/
def upsert_market_daily (date : String)
    (kospi_pct kosdaq_pct sp500_pct nasdaq_pct dow_pct usdkrw : ℚ)
    (usdkrw_pct us10y vix : Option ℚ) : MarketDailyRow :=
  { date := date
    kospi_pct := some kospi_pct
    kosdaq_pct := some kosdaq_pct
    sp500_pct := some sp500_pct
    nasdaq_pct := some nasdaq_pct
    dow_pct := some dow_pct
    usdkrw := some usdkrw
    usdkrw_pct := usdkrw_pct
    us10y := us10y
    vix := vix }

/-- One row of the `market_flow_daily` table. -/
structure FlowRow where
  date : String
  foreign_net : Option ℚ
  foreign_20d : Option ℚ
  foreign_60d : Option ℚ
deriving DecidableEq, Repr

/-- Embedding of `database.upsert_market_flow_daily`: optional inputs map
directly to nullable columns. -/
def upsert_market_flow_daily (date : String)
    (foreign_net foreign_20d foreign_60d : Option ℚ) : FlowRow :=
  { date := date
    foreign_net := foreign_net
    foreign_20d := foreign_20d
    foreign_60d := foreign_60d }

/-- The snapshot market numbers the pipeline reads (`snapshot.markets`):
after `build_snapshot_real` these are plain floats, failed fetches having
been replaced by the in-memory fallback 0.0. -/
structure SnapshotMarkets where
  kospi_pct : ℚ
  kosdaq_pct : ℚ
  sp500_pct : ℚ
  nasdaq_pct : ℚ
  dow_pct : ℚ
  usdkrw : ℚ
  usdkrw_pct : ℚ
  vix : ℚ
deriving DecidableEq, Repr

/-- Embedding of the market persistence step of `DailyPipeline.run`
(pipeline.py lines 82-97): the status map is consulted only for
`usdkrw_pct` and `vix`; `us10y` is hard-coded to NULL; every other market
column is passed through from the snapshot unguarded. -/
def pipelineMarketRow (status : String → Option String) (m : SnapshotMarkets)
    (marketDate : String) : MarketDailyRow :=
  let usdkrw_pct_db := if status "usdkrw_pct" = some "OK" then some m.usdkrw_pct else none
  let us10y_db : Option ℚ := none
  let vix_db := if status "vix" = some "OK" then some m.vix else none
  upsert_market_daily marketDate m.kospi_pct m.kosdaq_pct m.sp500_pct
    m.nasdaq_pct m.dow_pct m.usdkrw usdkrw_pct_db us10y_db vix_db

/-- Embedding of the flow persistence step of `DailyPipeline.run`
(pipeline.py lines 98-102): `foreign_net` is NULL unless the flows status
is OK; rolling columns are left NULL by this upsert. -/
def pipelineFlowRow (status : String → Option String) (foreign_net : ℚ)
    (marketDate : String) : FlowRow :=
  let foreign_net_db := if status "flows" = some "OK" then some foreign_net else none
  upsert_market_flow_daily marketDate foreign_net_db none none

/-- Embedding of `database._ALLOWED_FLOW_COLUMNS`. -/
def _ALLOWED_FLOW_COLUMNS : List String := ["foreign_net", "foreign_20d", "foreign_60d"]

/-- Column selection for `market_flow_daily`, as used by the rolling-sum
query. -/
def flowColumn (column : String) (r : FlowRow) : Option ℚ :=
  if column = "foreign_net" then r.foreign_net
  else if column = "foreign_20d" then r.foreign_20d
  else if column = "foreign_60d" then r.foreign_60d
  else none

/-- Lexicographic strict order on character lists (the binary collation
SQLite applies to TEXT and the codepoint order Python applies to str). -/
def charListLt : List Char → List Char → Bool
  | [], [] => false
  | [], _ :: _ => true
  | _ :: _, [] => false
  | a :: as, b :: bs => if a < b then true else if b < a then false else charListLt as bs

/-- Executable strict order on strings. -/
def strLt (a b : String) : Bool := charListLt a.data b.data

/-- Executable order on strings. -/
def strLe (a b : String) : Bool := !(strLt b a)

/-- Insert one row into a list already sorted by date descending. -/
def insertByDateDesc (r : FlowRow) : List FlowRow → List FlowRow
  | [] => [r]
  | x :: xs => if strLe x.date r.date then r :: x :: xs else x :: insertByDateDesc r xs

/-- The `ORDER BY date DESC` of the rolling-sum query (insertion sort on the
text primary key). -/
def sortByDateDesc (table : List FlowRow) : List FlowRow :=
  table.foldr insertByDateDesc []

/-- Embedding of `database.calculate_rolling_sum`: reject columns outside
the allowlist, take the last `n` rows by date descending, let SQL `SUM`
ignore NULLs (and be NULL itself over an empty set of values), count the
non-NULL values, return NULL when the count is below `n`, and otherwise
convert the SQL sum with `float(...)` (a `TypeError` if the sum is NULL,
which can only happen for `n = 0`). -/
def calculate_rolling_sum (column : String) (n : ℕ) (table : List FlowRow) :
    Except String (Option ℚ) :=
  if column ∈ _ALLOWED_FLOW_COLUMNS then
    let window := (sortByDateDesc table).take n
    let vals := window.filterMap (flowColumn column)
    let s : Option ℚ := if vals.isEmpty then none else some (vals.foldl (· + ·) 0)
    let cnt := vals.length
    if cnt < n then Except.ok none
    else
      match s with
      | some v => Except.ok (some v)
      | none => Except.error "TypeError: float argument must not be None"
  else Except.error ("Unsupported column for rolling sum: " ++ column)

/-- `schemas.stance.RegimeTag`. -/
inductive RegimeTag where
  | RISK_ON
  | NEUTRAL
  | RISK_OFF
deriving DecidableEq, Repr

/-- String value of a regime tag (the Python enum value). -/
def RegimeTag.value : RegimeTag → String
  | .RISK_ON => "RISK_ON"
  | .NEUTRAL => "NEUTRAL"
  | .RISK_OFF => "RISK_OFF"

/-- `schemas.stance.ConfidenceLevel`. -/
inductive ConfidenceLevel where
  | LOW
  | MED
  | HIGH
deriving DecidableEq, Repr

/-- `schemas.stance.AgentName`. -/
inductive AgentName where
  | MACRO
  | FLOW
  | SECTOR
  | RISK
deriving DecidableEq, Repr

/-- String value of an agent name (the Python enum value). -/
def AgentName.value : AgentName → String
  | .MACRO => "macro"
  | .FLOW => "flow"
  | .SECTOR => "sector"
  | .RISK => "risk"

/-- `schemas.stance.Stance` as a record; pydantic string/length constraints
are modelled as predicates where a claim needs them. -/
structure Stance where
  agent_name : AgentName
  core_claims : List String
  korean_comment : String
  raw_response : Option String
  regime_tag : RegimeTag
  evidence_ids : List String
  confidence : ConfidenceLevel
deriving DecidableEq, Repr

/-- `schemas.committee_result.KeyPoint`. -/
structure KeyPoint where
  point : String
  sources : List String
deriving DecidableEq, Repr

/-- `schemas.committee_result.Disagreement`. -/
structure Disagreement where
  topic : String
  majority : String
  minority : String
  minority_agents : List String
  why_it_matters : String
deriving DecidableEq, Repr

/-- `schemas.committee_result.OpsGuidanceLevel`. -/
inductive OpsGuidanceLevel where
  | OK
  | CAUTION
  | AVOID
deriving DecidableEq, Repr

/-- `schemas.committee_result.OpsGuidance`. -/
structure OpsGuidance where
  level : OpsGuidanceLevel
  text : String
deriving DecidableEq, Repr

/-- `schemas.committee_result.CommitteeResult`. -/
structure CommitteeResult where
  consensus : String
  key_points : List KeyPoint
  disagreements : List Disagreement
  ops_guidance : List OpsGuidance
deriving DecidableEq, Repr

/-- Python `lst or default` for lists (empty list is falsy). -/
def orElseList (l : List String) (d : List String) : List String :=
  if l.isEmpty then d else l

/-- The stances carrying a given regime tag, in stance order. -/
def stancesWithTag (stances : List Stance) (t : RegimeTag) : List Stance :=
  stances.filter (fun s => decide (s.regime_tag = t))

/-- Vote count of a regime tag (`sum(1 for stance in stances if ...)`). -/
def countTag (stances : List Stance) (t : RegimeTag) : ℕ :=
  (stancesWithTag stances t).length

/-- Agent names of the stances carrying a tag, in stance order
(`tag_to_agents` in the source). -/
def tagAgents (stances : List Stance) (t : RegimeTag) : List String :=
  (stancesWithTag stances t).map (fun s => s.agent_name.value)

/-- Python `max(tag_counts, key=tag_counts.get)` over the dict with
insertion order RISK_ON, NEUTRAL, RISK_OFF: the first tag with the
strictly greatest count wins ties. -/
def argmaxTag (c_on c_neu c_off : ℕ) : RegimeTag :=
  let best := (RegimeTag.RISK_ON, c_on)
  let best := if c_neu > best.2 then (RegimeTag.NEUTRAL, c_neu) else best
  if c_off > best.2 then RegimeTag.RISK_OFF else best.1

/-- Keep the first occurrence of each string, preserving order (the key
order of a Python dict built with `setdefault`). -/
def dedupFirstAux (seen : List String) : List String → List String
  | [] => []
  | x :: xs =>
    if x ∈ seen then dedupFirstAux seen xs
    else x :: dedupFirstAux (x :: seen) xs

/-- First-occurrence deduplication. -/
def dedupFirst (l : List String) : List String := dedupFirstAux [] l

/-- Python `max(items, key=lambda item: len(set(item[1])))`: the first item
with the strictly greatest number of distinct holders wins ties; `none` on
an empty dict. -/
def argmaxByDistinct (items : List (String × List String)) :
    Option (String × List String) :=
  items.foldl
    (fun acc it =>
      match acc with
      | none => some it
      | some cur => if it.2.dedup.length > cur.2.dedup.length then some it else some cur)
    none

/-- Insert a string into an ascending list. -/
def insertAsc (s : String) : List String → List String
  | [] => [s]
  | x :: xs => if strLe s x then s :: x :: xs else x :: insertAsc s xs

/-- Python `sorted(...)` on strings (ascending insertion sort). -/
def sortAsc (l : List String) : List String := l.foldr insertAsc []

/-- Group the second components by their first component, keys in first
appearance order — a Python dict built with `setdefault(key, []).append`. -/
def groupPairs (pairs : List (String × String)) : List (String × List String) :=
  (dedupFirst (pairs.map Prod.fst)).map
    (fun k => (k, (pairs.filter (fun p => decide (p.1 = k))).map Prod.snd))

/-- Embedding of `chair_stub._build_key_points`. -/
def _build_key_points (stances : List Stance) (majority_tag : Option RegimeTag) :
    List KeyPoint :=
  if stances.isEmpty then [⟨"No stances provided.", ["none"]⟩]
  else
    let mt := match majority_tag with
      | some t => t
      | none =>
        argmaxTag (tagAgents stances .RISK_ON).length (tagAgents stances .NEUTRAL).length
          (tagAgents stances .RISK_OFF).length
    let firstPoint : KeyPoint :=
      ⟨"Majority regime tag: " ++ mt.value ++ ".",
        orElseList ((tagAgents stances mt).take 5) ["unknown"]⟩
    let evidenceItems :=
      groupPairs (stances.flatMap (fun s => s.evidence_ids.map (fun e => (e, s.agent_name.value))))
    let evidencePoint : List KeyPoint :=
      match argmaxByDistinct evidenceItems with
      | some (e, agents) =>
        if 2 ≤ agents.dedup.length then
          [⟨"Shared evidence focus: " ++ e ++ ".", (sortAsc agents.dedup).take 5⟩]
        else []
      | none => []
    let claimItems :=
      groupPairs (stances.flatMap (fun s => s.core_claims.map (fun c => (c, s.agent_name.value))))
    let claimPoint : List KeyPoint :=
      match argmaxByDistinct claimItems with
      | some (c, agents) =>
        if 2 ≤ agents.dedup.length then
          [⟨"Shared claim: " ++ c, (sortAsc agents.dedup).take 5⟩]
        else []
      | none => []
    ((firstPoint :: evidencePoint) ++ claimPoint).take 3

/-- Embedding of `chair_stub._build_disagreements`; the tag counts arrive in
dict iteration order RISK_ON, NEUTRAL, RISK_OFF. -/
def _build_disagreements (stances : List Stance) (c_on c_neu c_off : ℕ)
    (majority_tag : Option RegimeTag) : List Disagreement :=
  match majority_tag with
  | none =>
    [⟨"Regime tags", "None", "None", ["none"],
      "No stances provided, so no regime disagreement can be assessed."⟩]
  | some mt =>
    let minority_exists :=
      (0 < c_on ∧ mt ≠ .RISK_ON) ∨ (0 < c_neu ∧ mt ≠ .NEUTRAL) ∨ (0 < c_off ∧ mt ≠ .RISK_OFF)
    let entryFor : RegimeTag → ℕ → List Disagreement := fun t count =>
      if t ≠ mt ∧ 0 < count then
        [⟨"Regime tags", mt.value, t.value,
          orElseList ((tagAgents stances t).take 5) ["unknown"],
          "Minority risk regime can change positioning boundaries."⟩]
      else []
    let ds := entryFor .RISK_ON c_on ++ entryFor .NEUTRAL c_neu ++ entryFor .RISK_OFF c_off
    if ds.isEmpty then
      [⟨"Regime tags", mt.value, if minority_exists then "Minority present" else "None",
        ["none"], "No dissenting regime tags are present."⟩]
    else ds

/-- Number of occurrences of one character in a string. -/
def countChar (s : String) (c : Char) : ℕ := s.toList.count c

/-- `sum(result.consensus.count(ch) for ch in ".!?")`. -/
def terminatorCount (s : String) : ℕ :=
  countChar s '.' + countChar s '!' + countChar s '?'

/-- Drop leading whitespace characters. -/
def dropLeadingWs : List Char → List Char
  | [] => []
  | c :: cs => if c.isWhitespace then dropLeadingWs cs else c :: cs

/-- Python `str.strip()` (the normalization applied by pydantic
`strip_whitespace=True`). -/
def pyStrip (s : String) : String :=
  String.mk (((dropLeadingWs s.data).reverse |> dropLeadingWs).reverse)

/-- String length in code points (executable). -/
def strLength (s : String) : ℕ := s.data.length

/-- Whether a string starts with a non-whitespace character. -/
def headNonWs (s : String) : Bool :=
  match s.data with
  | [] => false
  | c :: _ => !c.isWhitespace

/-- Whether a string ends with a non-whitespace character. -/
def lastNonWs (s : String) : Bool :=
  match s.data.reverse with
  | [] => false
  | c :: _ => !c.isWhitespace

/-- Validation of a pydantic `constr(strip_whitespace=True, min_length=1,
max_length=maxLen)` field: strip, then enforce the bounds; returns the
normalized string. -/
def validateConstrText (maxLen : ℕ) (s : String) : Except String String :=
  let t := pyStrip s
  if strLength t < 1 then Except.error "String should have at least 1 character"
  else if maxLen < strLength t then
    Except.error "String should have at most max_length characters"
  else Except.ok t

/-- Validate every item of a pydantic list field in order. -/
def validateListAux {α : Type} (f : α → Except String α) : List α → Except String (List α)
  | [] => Except.ok []
  | x :: xs =>
    match f x with
    | Except.error e => Except.error e
    | Except.ok y =>
      match validateListAux f xs with
      | Except.error e => Except.error e
      | Except.ok ys => Except.ok (y :: ys)

/-- Validation of a bounded pydantic list field. -/
def validateList {α : Type} (f : α → Except String α) (minLen maxLen : ℕ)
    (l : List α) : Except String (List α) :=
  if l.length < minLen then Except.error "List should have at least min_length items"
  else if maxLen < l.length then Except.error "List should have at most max_length items"
  else validateListAux f l

/-- Pydantic validation of `KeyPoint` (point: ShortText, sources: 1 to 5
ShortText entries), performed when `CommitteeResult` is constructed. -/
def KeyPoint.model_validate (kp : KeyPoint) : Except String KeyPoint :=
  match validateConstrText 200 kp.point with
  | Except.error e => Except.error e
  | Except.ok p =>
    match validateList (validateConstrText 200) 1 5 kp.sources with
    | Except.error e => Except.error e
    | Except.ok srcs => Except.ok ⟨p, srcs⟩

/-- Pydantic validation of `Disagreement` (all text fields ShortText,
minority_agents 1 to 5 entries). -/
def Disagreement.model_validate (d : Disagreement) : Except String Disagreement :=
  match validateConstrText 200 d.topic with
  | Except.error e => Except.error e
  | Except.ok t =>
    match validateConstrText 200 d.majority with
    | Except.error e => Except.error e
    | Except.ok ma =>
      match validateConstrText 200 d.minority with
      | Except.error e => Except.error e
      | Except.ok mi =>
        match validateList (validateConstrText 200) 1 5 d.minority_agents with
        | Except.error e => Except.error e
        | Except.ok ags =>
          match validateConstrText 200 d.why_it_matters with
          | Except.error e => Except.error e
          | Except.ok w => Except.ok ⟨t, ma, mi, ags, w⟩

/-- Pydantic validation of `OpsGuidance` (text: ShortText; the level is
already a typed enum). -/
def OpsGuidance.model_validate (g : OpsGuidance) : Except String OpsGuidance :=
  match validateConstrText 200 g.text with
  | Except.error e => Except.error e
  | Except.ok t => Except.ok ⟨g.level, t⟩

/-- Pydantic validation performed by the `CommitteeResult(...)` call at
chair_stub.py line 71: fields in declaration order — consensus
(SentenceText, max 300), 1 to 3 key points, 1 to 3 disagreements, exactly
3 guidance entries.  (The `Disagreement(...)` constructors inside
`_build_disagreements` validate earlier in the source, but their fields
are fixed strings and enum values, so collecting all checks here
preserves the accept and reject behaviour.) -/
def CommitteeResult.model_validate (r : CommitteeResult) : Except String CommitteeResult :=
  match validateConstrText 300 r.consensus with
  | Except.error e => Except.error e
  | Except.ok c =>
    match validateList KeyPoint.model_validate 1 3 r.key_points with
    | Except.error e => Except.error e
    | Except.ok kps =>
      match validateList Disagreement.model_validate 1 3 r.disagreements with
      | Except.error e => Except.error e
      | Except.ok ds =>
        match validateList OpsGuidance.model_validate 3 3 r.ops_guidance with
        | Except.error e => Except.error e
        | Except.ok ops => Except.ok ⟨c, kps, ds, ops⟩

/-- The unvalidated result `ChairStub.run` assembles before the
`CommitteeResult(...)` construction (chair_stub.py lines 21-76): the
three-way branch on an empty stance list, a strict risk-off majority, or
the default neutral posture, followed by truncation to at most 3 key
points and disagreements. -/
def ChairStub.rawResult (stances : List Stance) : CommitteeResult :=
  let total := stances.length
  let c_on := countTag stances .RISK_ON
  let c_neu := countTag stances .NEUTRAL
  let c_off := countTag stances .RISK_OFF
  let risk_off_count := c_off
  let majority_tag : Option RegimeTag :=
    if total = 0 then none else some (argmaxTag c_on c_neu c_off)
  let triple : String × List KeyPoint × List Disagreement × List OpsGuidance :=
    if total = 0 then
      ("No consensus can be formed due to missing stances.",
        [⟨"Stance list is empty.", ["none"]⟩],
        [⟨"Regime tags", "None", "None", ["none"],
          "No stances provided, so no regime disagreement can be assessed."⟩],
        [⟨.OK, "Pause until stances are provided."⟩,
          ⟨.CAUTION, "Await minimum stance coverage."⟩,
          ⟨.AVOID, "Do not act without stances."⟩])
    else if (risk_off_count : ℚ) > (total : ℚ) / 2 then
      ("Committee adopts a defensive posture and reduces risk exposure.",
        _build_key_points stances majority_tag,
        _build_disagreements stances c_on c_neu c_off majority_tag,
        [⟨.OK, "Keep exposure focused on resilience."⟩,
          ⟨.CAUTION, "Favor defensive positioning."⟩,
          ⟨.AVOID, "Avoid high-beta risk assets."⟩])
    else
      ("Committee maintains a neutral posture with selective positioning.",
        _build_key_points stances majority_tag,
        _build_disagreements stances c_on c_neu c_off majority_tag,
        [⟨.OK, "Maintain balanced exposure."⟩,
          ⟨.CAUTION, "Keep risk limits tight."⟩,
          ⟨.AVOID, "Avoid aggressive leverage."⟩])
  ⟨triple.1, triple.2.1.take 3, triple.2.2.1.take 3, triple.2.2.2⟩

/-- The minority-repair step of `ChairStub.run` (chair_stub.py lines
77-86), applied after construction; the field assignment does not
re-validate (pydantic validate_assignment is off). -/
def ChairStub.minorityRepair (stances : List Stance) (result : CommitteeResult) :
    CommitteeResult :=
  let total := stances.length
  let c_on := countTag stances .RISK_ON
  let c_neu := countTag stances .NEUTRAL
  let c_off := countTag stances .RISK_OFF
  let majority_tag : Option RegimeTag :=
    if total = 0 then none else some (argmaxTag c_on c_neu c_off)
  let minority_exists : Bool :=
    match majority_tag with
    | none => false
    | some mt =>
      decide ((0 < c_on ∧ mt ≠ .RISK_ON) ∨ (0 < c_neu ∧ mt ≠ .NEUTRAL) ∨ (0 < c_off ∧ mt ≠ .RISK_OFF))
  if minority_exists && result.disagreements.isEmpty then
    { result with
      disagreements :=
        [⟨"Regime tags",
          (match majority_tag with | some mt => mt.value | none => "None"),
          "Minority present", ["unknown"],
          "Minority regime should be recorded for review."⟩] }
  else result

/-- The committee result the chair builds and repairs, disregarding
validation: this equals the value `ChairStub.run` returns whenever the
pydantic validation of the built result is the identity. -/
def ChairStub.body (stances : List Stance) : CommitteeResult :=
  ChairStub.minorityRepair stances (ChairStub.rawResult stances)

/-- The two exception kinds `ChairStub.run` can raise: the pydantic
ValidationError of the `CommitteeResult(...)` construction, and the
ValueError of the final single-sentence check. -/
inductive ChairError where
  | validationError (msg : String)
  | valueError (msg : String)
deriving DecidableEq, Repr

/-- Embedding of `ChairStub.run`: assemble the raw result, validate it at
construction (chair_stub.py line 71), apply the minority repair, then the
hard single-sentence checks on the consensus (lines 87-92). -/
def ChairStub.run (stances : List Stance) : Except ChairError CommitteeResult :=
  match CommitteeResult.model_validate (ChairStub.rawResult stances) with
  | Except.error e => Except.error (ChairError.validationError e)
  | Except.ok validated =>
    let result := ChairStub.minorityRepair stances validated
    if result.consensus.toList.contains '\n' then
      Except.error (ChairError.valueError "Consensus must be a single sentence.")
    else if 1 < terminatorCount result.consensus then
      Except.error (ChairError.valueError "Consensus must be a single sentence.")
    else Except.ok result

/-- ASCII uppercase letter. -/
def isAsciiUpper (c : Char) : Bool := 'A' ≤ c && c ≤ 'Z'

/-- ASCII digit. -/
def isAsciiDigit (c : Char) : Bool := '0' ≤ c && c ≤ '9'

/-- A regex word character (letter, digit or underscore; the claim texts
are ASCII, where this coincides with the Python semantics). -/
def isWordChar (c : Char) : Bool := c.isAlphanum || c = '_'

/-- Split a character list into its maximal runs of word characters. -/
def wordRunsAux : List Char → List Char → List String
  | acc, [] => if acc.isEmpty then [] else [String.mk acc.reverse]
  | acc, c :: cs =>
    if isWordChar c then wordRunsAux (c :: acc) cs
    else if acc.isEmpty then wordRunsAux [] cs
    else String.mk acc.reverse :: wordRunsAux [] cs

/-- Maximal word-character runs of a string. -/
def wordRuns (s : String) : List String := wordRunsAux [] s.toList

/-- Whether a whole word run matches `[A-Z][A-Z0-9]{1,11}`. -/
def tickerLike (s : String) : Bool :=
  match s.toList with
  | [] => false
  | c :: cs =>
    isAsciiUpper c && 1 ≤ cs.length && cs.length ≤ 11 &&
      cs.all (fun d => isAsciiUpper d || isAsciiDigit d)

/-- `TICKER_PATTERN.findall(text)`: since the pattern is anchored by word
boundaries on both sides, its matches are exactly the maximal
word-character runs that fully match `[A-Z][A-Z0-9]{1,11}`. -/
def findTickerTokens (s : String) : List String := (wordRuns s).filter tickerLike

/-- `validators.ALLOWED_NON_TICKER_TOKENS`. -/
def ALLOWED_NON_TICKER_TOKENS : List String :=
  ["US", "KR", "USD", "CPI", "GDP", "PMI", "FOMC", "ETF", "AI", "OIL", "FED",
   "CNBC", "KOSPI", "KOSDAQ", "SP500", "NASDAQ", "DOW", "VIX", "FX", "KRW",
   "RISK_ON", "RISK_OFF", "NEUTRAL", "OK", "CAUTION", "AVOID", "STK", "KSQ"]

/-- Python `str.upper()` (executable character-list version). -/
def strToUpper (s : String) : String := String.mk (s.data.map Char.toUpper)

/-- Python `s.split(".")` (executable). -/
def splitOnDotAux : List Char → List Char → List String
  | acc, [] => [String.mk acc.reverse]
  | acc, c :: cs =>
    if c = '.' then String.mk acc.reverse :: splitOnDotAux [] cs
    else splitOnDotAux (c :: acc) cs

/-- Split a string on the dot character. -/
def splitOnDot (s : String) : List String := splitOnDotAux [] s.data

/-- The token loop of `validators._assert_no_unknown_tickers`: skip tokens
in the fixed allow-list, skip tokens in the uppercased watchlist, raise on
the first other token. -/
def checkTokens (wl : List String) : List String → Except String Unit
  | [] => Except.ok ()
  | t :: ts =>
    if t ∈ ALLOWED_NON_TICKER_TOKENS then checkTokens wl ts
    else if t ∈ wl then checkTokens wl ts
    else Except.error ("Ticker " ++ t ++ " not found in snapshot watchlist.")

/-- Embedding of `validators._assert_no_unknown_tickers`. -/
def _assert_no_unknown_tickers (texts : List String) (watchlist : List String) :
    Except String Unit :=
  checkTokens (watchlist.map strToUpper) (texts.flatMap findTickerTokens)

/-- `validators.ALLOWED_EVIDENCE_IDS`. -/
def ALLOWED_EVIDENCE_IDS : List String :=
  ["snapshot.market_summary.note",
   "snapshot.market_summary.usdkrw",
   "snapshot.market_summary.kospi_change_pct",
   "snapshot.flow_summary.note",
   "snapshot.sector_moves",
   "snapshot.news_headlines",
   "snapshot.watchlist"]

/-- The pydantic `ShortText` type: stripped, 1 to 200 characters. -/
def ShortTextOK (s : String) : Bool :=
  pyStrip s = s && 1 ≤ strLength s && strLength s ≤ 200

/-- The pydantic `KoreanComment` type: stripped, 1 to 120 characters. -/
def KoreanCommentOK (s : String) : Bool :=
  pyStrip s = s && 1 ≤ strLength s && strLength s ≤ 120

/-- The pydantic `IdToken` type: stripped, 1 to 60 characters, matching
`^snapshot\.[a-z_]+(\.[a-z_]+)*$`. -/
def IdTokenOK (s : String) : Bool :=
  pyStrip s = s && 1 ≤ strLength s && strLength s ≤ 60 &&
    (match splitOnDot s with
     | "snapshot" :: rest =>
       !rest.isEmpty &&
         rest.all (fun part =>
           !part.data.isEmpty && part.data.all (fun c => ('a' ≤ c && c ≤ 'z') || c = '_'))
     | _ => false)

/-- `Stance.model_validate` on an already-typed stance: the pydantic field
constraints of `schemas.stance.Stance`. -/
def stanceSchemaValid (s : Stance) : Bool :=
  1 ≤ s.core_claims.length && s.core_claims.length ≤ 3 &&
    s.core_claims.all ShortTextOK &&
    KoreanCommentOK s.korean_comment &&
    (match s.raw_response with
     | none => true
     | some r => 1 ≤ strLength r && strLength r ≤ 4000) &&
    1 ≤ s.evidence_ids.length && s.evidence_ids.length ≤ 10 &&
    s.evidence_ids.all IdTokenOK

/-- The per-stance loop of `validators.validate_stances`: schema-validate
each stance, then check its evidence ids against the allow-list
(`_assert_evidence_ids`), accumulating the normalized list. -/
def validateStancesLoop : List Stance → Except String (List Stance)
  | [] => Except.ok []
  | s :: rest =>
    if !stanceSchemaValid s then Except.error "stance schema validation failed"
    else
      let invalid := s.evidence_ids.filter (fun e => !(e ∈ ALLOWED_EVIDENCE_IDS))
      if !invalid.isEmpty then
        Except.error ("Invalid evidence_ids: " ++ String.intercalate ", " invalid)
      else (validateStancesLoop rest).map (fun tl => s :: tl)

/-- Embedding of `validators.validate_stances`: the loop, then
`_assert_stances_present` and `_assert_core_claims_limit`. -/
def validate_stances (stances : List Stance) : Except String (List Stance) :=
  match validateStancesLoop stances with
  | Except.error e => Except.error e
  | Except.ok normalized =>
    if normalized.length < 1 then Except.error "At least one stance is required."
    else if normalized.any (fun s => decide (3 < s.core_claims.length)) then
      Except.error "core_claims must not exceed 3 items."
    else Except.ok normalized

/-- Example inputs used by concrete witnesses and counterexamples. -/
def allFailStatus : String → Option String := fun _ => some "FAIL"

/-- A snapshot whose every market number is the in-memory fallback 0.0. -/
def zeroMarkets : SnapshotMarkets := ⟨0, 0, 0, 0, 0, 0, 0, 0⟩

/-- A two-day flow table with non-null foreign_net values. -/
def sampleFlowTable : List FlowRow :=
  [⟨"2026-01-02", some 1, none, none⟩, ⟨"2026-01-01", some 2, none, none⟩]

/-- A schema-valid stance whose evidence ids are all allow-listed. -/
def sampleStance : Stance :=
  { agent_name := .MACRO
    core_claims := ["Inflation pressure is easing"]
    korean_comment := "market comment"
    raw_response := none
    regime_tag := .RISK_OFF
    evidence_ids := ["snapshot.market_summary.note"]
    confidence := .HIGH }

/-- A 194-character core claim: schema-valid for a stance (at most 200
characters), but the derived key point "Shared claim: ..." then has 208
characters and overflows the ShortText limit of the result schema. -/
def longSharedClaim : String :=
  "Prolonged tightening of global financial conditions keeps pressuring risk assets while earnings revisions deteriorate across cyclical sectors and funding stress indicators continue moving higher"

/-- Three risk-off stances and one neutral stance where two agents share
the long core claim. -/
def c6CounterStances : List Stance :=
  [{ agent_name := .MACRO, core_claims := [longSharedClaim], korean_comment := "k",
     raw_response := none, regime_tag := .RISK_OFF,
     evidence_ids := ["snapshot.watchlist"], confidence := .LOW },
   { agent_name := .FLOW, core_claims := [longSharedClaim], korean_comment := "k",
     raw_response := none, regime_tag := .RISK_OFF,
     evidence_ids := ["snapshot.watchlist"], confidence := .LOW },
   { agent_name := .SECTOR, core_claims := ["c"], korean_comment := "k",
     raw_response := none, regime_tag := .RISK_OFF,
     evidence_ids := ["snapshot.watchlist"], confidence := .LOW },
   { agent_name := .RISK, core_claims := ["d"], korean_comment := "k",
     raw_response := none, regime_tag := .NEUTRAL,
     evidence_ids := ["snapshot.watchlist"], confidence := .LOW }]

theorem orElseWord_ne_empty (r : Option String) (w : String) (hw : w ≠ "") :
    orElseWord r w ≠ "" := by
  cases r with
  | none => simpa [orElseWord] using hw
  | some s =>
    by_cases hs : s = "" <;> simp [orElseWord, hs, hw]

/-- Claim C2 (amended): `_safe_value` passes a present primary value
through unchanged with no failure reason; on a failed primary it resolves
to the default fetcher value (0.0 when that is absent, so no exception
escapes) and records the primary failure reason — the reason of the absent
return, or the raised message when that message is nonempty; only a raised
empty message falls back to the default reason or the word unavailable. -/
theorem c2_safe_value_resolution (p : FetchOutcome) (d : Option ℚ × Option String) :
    (∀ v r, p = .returns (some v) r → _safe_value p d = (v, none)) ∧
    (∀ r, p = .returns none r →
      _safe_value p d = (d.1.getD 0, some (orElseWord r "unavailable"))) ∧
    (∀ m, p = .raises m → m ≠ "" → _safe_value p d = (d.1.getD 0, some m)) ∧
    (∀ m, p = .raises m → m = "" →
      _safe_value p d = (d.1.getD 0, some (orElseWord d.2 "unavailable"))) := by
  refine ⟨?_, ?_, ?_, ?_⟩
  · rintro v r rfl; rfl
  · rintro r rfl
    have hne : orElseWord r "unavailable" ≠ "" := orElseWord_ne_empty r _ (by decide)
    simp [_safe_value, hne]
  · rintro m rfl hm
    simp [_safe_value, hm]
  · rintro m rfl rfl
    simp [_safe_value]

/-- Witness for C2: a primary that returns 5 resolves to (5, no reason). -/
theorem c2_safe_value_resolution_witness :
    _safe_value (.returns (some 5) none) FallbackProvider.get_usdkrw = (5, none) :=
  (c2_safe_value_resolution (.returns (some 5) none) FallbackProvider.get_usdkrw).1 5 none rfl

/-- Counterexample to C2 as stated: when the primary raises with an empty
message, the recorded reason is the default fetcher reason "fallback used",
not the primary failure reason (the empty message). -/
theorem c2_counterexample_empty_message :
    (_safe_value (.raises "") FallbackProvider.get_usdkrw).2 = some "fallback used" ∧
    (some "fallback used" : Option String) ≠ some "" := by
  exact ⟨rfl, by decide⟩

/-- Claim C4: on the empty stance list the chair returns the fixed no
consensus result — the no-stances consensus sentence, one explanatory key
point, one placeholder disagreement, and exactly the three OK/CAUTION/AVOID
guidance entries — and does not raise. -/
theorem c4_chair_empty_stances :
    ChairStub.run [] =
      Except.ok
        { consensus := "No consensus can be formed due to missing stances."
          key_points := [⟨"Stance list is empty.", ["none"]⟩]
          disagreements := [⟨"Regime tags", "None", "None", ["none"],
            "No stances provided, so no regime disagreement can be assessed."⟩]
          ops_guidance := [⟨.OK, "Pause until stances are provided."⟩,
            ⟨.CAUTION, "Await minimum stance coverage."⟩,
            ⟨.AVOID, "Do not act without stances."⟩] } := by
  rfl

/-- Claim C5: the liquidity signal is the 3-decimal rounding of the sum of
the three optional macro terms, an absent input contributing zero; with all
three inputs absent it is exactly 0. -/
theorem c5_liquidity_additive (dxy real_rate spread_2_10 : Option ℚ) :
    liquidity_signal_score dxy real_rate spread_2_10 =
      round3 ((match dxy with | some v => (100 - v) / 5 | none => 0) +
        (match real_rate with | some v => 3/2 - v | none => 0) +
        (match spread_2_10 with | some v => 2 * v | none => 0)) ∧
    liquidity_signal_score none none none = 0 := by
  constructor
  · rcases dxy with _ | a <;> rcases real_rate with _ | b <;> rcases spread_2_10 with _ | c <;>
      · simp only [liquidity_signal_score, liquidity_score]
        congr 1
        ring
  · simp [liquidity_signal_score, liquidity_score, round3]

/-- Counterexample to C1 as stated: on a run where the kospi fetch failed
(source status FAIL, snapshot holding the in-memory fallback 0.0), the
persisted `market_daily` row stores kospi_pct as the numeric value 0.0,
not as NULL. The same pass-through applies to kosdaq_pct, sp500_pct,
nasdaq_pct, dow_pct and usdkrw. -/
theorem c1_counterexample_kospi_zero_on_fail :
    allFailStatus "kospi" = some "FAIL" ∧
    (pipelineMarketRow allFailStatus zeroMarkets "2026-01-02").kospi_pct = some 0 ∧
    (pipelineMarketRow allFailStatus zeroMarkets "2026-01-02").usdkrw = some 0 := by
  exact ⟨rfl, rfl, rfl⟩

/-- Claim C1 (amended): NULL-on-FAIL persistence holds exactly for the
status-guarded columns — usdkrw_pct, us10y (always NULL) and vix of the
daily market row, and foreign_net of the daily flow row; the remaining
market columns are written with the in-memory snapshot numbers
unconditionally. -/
theorem c1_null_on_fail_guarded_columns (status : String → Option String)
    (m : SnapshotMarkets) (fnet : ℚ) (d : String)
    (h1 : status "usdkrw_pct" = some "FAIL") (h2 : status "vix" = some "FAIL")
    (h3 : status "flows" = some "FAIL") :
    (pipelineMarketRow status m d).usdkrw_pct = none ∧
    (pipelineMarketRow status m d).us10y = none ∧
    (pipelineMarketRow status m d).vix = none ∧
    (pipelineFlowRow status fnet d).foreign_net = none := by
  refine ⟨?_, ?_, ?_, ?_⟩ <;>
    simp [pipelineMarketRow, pipelineFlowRow, upsert_market_daily,
      upsert_market_flow_daily, h1, h2, h3]

/-- Witness for the amended C1 at the all-FAIL status map. -/
theorem c1_null_on_fail_guarded_columns_witness :
    (pipelineMarketRow allFailStatus zeroMarkets "2026-01-02").usdkrw_pct = none ∧
    (pipelineMarketRow allFailStatus zeroMarkets "2026-01-02").us10y = none ∧
    (pipelineMarketRow allFailStatus zeroMarkets "2026-01-02").vix = none ∧
    (pipelineFlowRow allFailStatus 0 "2026-01-02").foreign_net = none :=
  c1_null_on_fail_guarded_columns allFailStatus zeroMarkets 0 "2026-01-02" rfl rfl rfl

/-- Claim C3: for every allow-listed column and window N > 0, the rolling
sum returns unavailable whenever fewer than N non-null values exist among
the last N rows by date descending; otherwise the window holds exactly N
rows, all non-null, and the result is their full sum — never a partial sum. -/
theorem c3_rolling_sum_full_window (column : String) (n : ℕ) (table : List FlowRow)
    (hn : 0 < n) (hcol : column ∈ _ALLOWED_FLOW_COLUMNS) :
    ((((sortByDateDesc table).take n).filterMap (flowColumn column)).length < n →
      calculate_rolling_sum column n table = Except.ok none) ∧
    (n ≤ (((sortByDateDesc table).take n).filterMap (flowColumn column)).length →
      ((sortByDateDesc table).take n).length = n ∧
      (((sortByDateDesc table).take n).filterMap (flowColumn column)).length = n ∧
      calculate_rolling_sum column n table =
        Except.ok (some ((((sortByDateDesc table).take n).filterMap
          (flowColumn column)).foldl (· + ·) 0))) := by
  have hwin_le : ((sortByDateDesc table).take n).length ≤ n := by
    simp [List.length_take]
  have hvals_le : (((sortByDateDesc table).take n).filterMap (flowColumn column)).length ≤
      ((sortByDateDesc table).take n).length := List.length_filterMap_le _ _
  constructor
  · intro hlt
    simp only [calculate_rolling_sum, if_pos hcol]
    rw [if_pos hlt]
  · intro hge
    have h1 : ((sortByDateDesc table).take n).length = n :=
      le_antisymm hwin_le (le_trans hge hvals_le)
    have h2 : (((sortByDateDesc table).take n).filterMap (flowColumn column)).length = n :=
      le_antisymm (hvals_le.trans hwin_le) hge
    refine ⟨h1, h2, ?_⟩
    have hne : ((sortByDateDesc table).take n).filterMap (flowColumn column) ≠ [] := by
      intro h
      rw [h] at h2
      simp at h2
      omega
    simp only [calculate_rolling_sum, if_pos hcol]
    rw [if_neg (not_lt.mpr hge)]
    simp [List.isEmpty_iff, hne]

/-- Witness for C3: a full two-row window sums to 3. -/
theorem c3_rolling_sum_full_window_witness :
    calculate_rolling_sum "foreign_net" 2 sampleFlowTable = Except.ok (some 3) := by
  have h := (c3_rolling_sum_full_window "foreign_net" 2 sampleFlowTable
    (by decide) (by decide)).2 (by decide)
  rw [h.2.2]
  have hlist : ((sortByDateDesc sampleFlowTable).take 2).filterMap
      (flowColumn "foreign_net") = [1, 2] := by decide
  rw [hlist]
  norm_num

/-- Claim C9: the ticker guard accepts text whose only ticker-like token is
AI for every watchlist (AI is in the fixed non-ticker allow-list), and
rejects text containing the token XYZ whenever XYZ is neither allow-listed
nor in the (uppercased) watchlist. -/
theorem c9_ticker_guard_ai_xyz (watchlist : List String) :
    _assert_no_unknown_tickers ["Momentum in AI remains strong"] watchlist =
      Except.ok () ∧
    ("XYZ" ∉ watchlist.map strToUpper →
      _assert_no_unknown_tickers ["Momentum in XYZ remains strong"] watchlist =
        Except.error "Ticker XYZ not found in snapshot watchlist.") := by
  have h1 : (["Momentum in AI remains strong"] : List String).flatMap findTickerTokens =
      ["AI"] := by decide
  have h2 : (["Momentum in XYZ remains strong"] : List String).flatMap findTickerTokens =
      ["XYZ"] := by decide
  constructor
  · unfold _assert_no_unknown_tickers
    rw [h1]
    have hmem : "AI" ∈ ALLOWED_NON_TICKER_TOKENS := by decide
    simp only [checkTokens, if_pos hmem]
  · intro hx
    unfold _assert_no_unknown_tickers
    rw [h2]
    have hmem : "XYZ" ∉ ALLOWED_NON_TICKER_TOKENS := by decide
    simp only [checkTokens, if_neg hmem, if_neg hx]
    rfl

/-- Witness for C9 with the snapshot watchlist SPY/QQQ/XLK. -/
theorem c9_ticker_guard_ai_xyz_witness :
    _assert_no_unknown_tickers ["Momentum in AI remains strong"] ["SPY", "QQQ", "XLK"] =
      Except.ok () ∧
    _assert_no_unknown_tickers ["Momentum in XYZ remains strong"] ["SPY", "QQQ", "XLK"] =
      Except.error "Ticker XYZ not found in snapshot watchlist." :=
  ⟨(c9_ticker_guard_ai_xyz ["SPY", "QQQ", "XLK"]).1,
   (c9_ticker_guard_ai_xyz ["SPY", "QQQ", "XLK"]).2 (by decide)⟩

theorem validateStancesLoop_ok (ss : List Stance)
    (h : ∀ s ∈ ss, stanceSchemaValid s = true ∧
      ∀ e ∈ s.evidence_ids, e ∈ ALLOWED_EVIDENCE_IDS) :
    validateStancesLoop ss = Except.ok ss := by
  induction ss with
  | nil => rfl
  | cons s rest ih =>
    obtain ⟨h1, h2⟩ := h s (List.mem_cons_self _ _)
    have hinv : s.evidence_ids.filter (fun e => !(e ∈ ALLOWED_EVIDENCE_IDS)) = [] := by
      rw [List.filter_eq_nil_iff]
      intro e he
      simp [h2 e he]
    have hrest := ih (fun t ht => h t (List.mem_cons_of_mem _ ht))
    simp only [validateStancesLoop, h1, hinv, hrest]
    rfl

/-- Claim C10: the empty stance list is rejected by output validation with
the fixed presence error, even though the chair itself accepts it without
raising; every non-empty list of schema-valid stances with allow-listed
evidence ids passes and is returned. -/
theorem c10_validate_stances_empty_rejected :
    validate_stances [] = Except.error "At least one stance is required." ∧
    ChairStub.run [] = Except.ok (ChairStub.body []) ∧
    (∀ ss : List Stance, ss ≠ [] →
      (∀ s ∈ ss, stanceSchemaValid s = true ∧
        ∀ e ∈ s.evidence_ids, e ∈ ALLOWED_EVIDENCE_IDS) →
      validate_stances ss = Except.ok ss) := by
  refine ⟨rfl, rfl, ?_⟩
  intro ss hne hvalid
  have hloop := validateStancesLoop_ok ss hvalid
  have hlen : ¬ ss.length < 1 := by
    have := List.length_pos.mpr hne
    omega
  have hany : ss.any (fun s => decide (3 < s.core_claims.length)) = false := by
    rw [List.any_eq_false]
    intro s hs
    have h1 := (hvalid s hs).1
    simp [stanceSchemaValid] at h1
    simp
    omega
  simp only [validate_stances, hloop, if_neg hlen, hany]
  rfl

/-- Witness for C10 at a concrete one-stance list. -/
theorem c10_validate_stances_empty_rejected_witness :
    validate_stances [sampleStance] = Except.ok [sampleStance] :=
  c10_validate_stances_empty_rejected.2.2 [sampleStance] (by simp)
    (by
      intro s hs
      simp only [List.mem_singleton] at hs
      subst hs
      exact ⟨by decide, by decide⟩)

theorem countTag_cons (s : Stance) (l : List Stance) (t : RegimeTag) :
    countTag (s :: l) t = (if s.regime_tag = t then 1 else 0) + countTag l t := by
  by_cases h : s.regime_tag = t <;>
    · simp [countTag, stancesWithTag, List.filter_cons, h]
      try omega

theorem countTag_partition (l : List Stance) :
    countTag l .RISK_ON + countTag l .NEUTRAL + countTag l .RISK_OFF = l.length := by
  induction l with
  | nil => rfl
  | cons s rest ih =>
    rw [countTag_cons, countTag_cons, countTag_cons]
    cases h : s.regime_tag <;> simp [h] <;> omega

theorem string_mk_data (s : String) : String.mk s.data = s := by
  cases s
  rfl

theorem string_data_append (a b : String) : (a ++ b).data = a.data ++ b.data := by
  cases a
  cases b
  rfl

theorem strLength_append (a b : String) : strLength (a ++ b) = strLength a + strLength b := by
  simp [strLength, string_data_append]

theorem dropLeadingWs_cons_of_not_ws (c : Char) (l : List Char)
    (hc : c.isWhitespace = false) : dropLeadingWs (c :: l) = c :: l := by
  simp [dropLeadingWs, hc]

theorem dropLeadingWs_length_le (l : List Char) : (dropLeadingWs l).length ≤ l.length := by
  induction l with
  | nil => simp [dropLeadingWs]
  | cons c cs ih =>
    by_cases h : c.isWhitespace <;>
      · simp [dropLeadingWs, h]
        try omega

theorem pyStrip_data (s : String) :
    (pyStrip s).data = (dropLeadingWs ((dropLeadingWs s.data).reverse)).reverse := rfl

theorem pyStrip_eq_self_of (s : String) (h1 : headNonWs s = true)
    (h2 : lastNonWs s = true) : pyStrip s = s := by
  obtain ⟨c, l, hd, hc⟩ : ∃ c l, s.data = c :: l ∧ c.isWhitespace = false := by
    unfold headNonWs at h1
    cases hd : s.data with
    | nil => rw [hd] at h1; simp at h1
    | cons c l =>
      rw [hd] at h1
      simp at h1
      exact ⟨c, l, rfl, h1⟩
  obtain ⟨c2, l2, hr, hc2⟩ : ∃ c2 l2, s.data.reverse = c2 :: l2 ∧ c2.isWhitespace = false := by
    unfold lastNonWs at h2
    cases hr : s.data.reverse with
    | nil => rw [hr] at h2; simp at h2
    | cons c2 l2 =>
      rw [hr] at h2
      simp at h2
      exact ⟨c2, l2, rfl, h2⟩
  have hdl : dropLeadingWs s.data = s.data := by
    rw [hd]
    exact dropLeadingWs_cons_of_not_ws c l hc
  unfold pyStrip
  rw [hdl, hr, dropLeadingWs_cons_of_not_ws c2 l2 hc2, ← hr, List.reverse_reverse]

theorem headNonWs_append (a b : String) (ha : headNonWs a = true) :
    headNonWs (a ++ b) = true := by
  unfold headNonWs at ha ⊢
  rw [string_data_append]
  cases hd : a.data with
  | nil => rw [hd] at ha; simp at ha
  | cons c l =>
    rw [hd] at ha
    simpa using ha

theorem lastNonWs_append (a b : String) (hb : lastNonWs b = true) :
    lastNonWs (a ++ b) = true := by
  unfold lastNonWs at hb ⊢
  rw [string_data_append, List.reverse_append]
  cases hr : b.data.reverse with
  | nil => rw [hr] at hb; simp at hb
  | cons c l =>
    rw [hr] at hb
    simpa using hb

theorem stripped_head_last (m : String) (h : pyStrip m = m) (hne : m.data ≠ []) :
    headNonWs m = true ∧ lastNonWs m = true := by
  obtain ⟨c, l, hd⟩ : ∃ c l, m.data = c :: l := by
    cases hm : m.data with
    | nil => exact absurd hm hne
    | cons c l => exact ⟨c, l, rfl⟩
  have hlen := congrArg (fun s => s.data.length) h
  simp only [pyStrip_data] at hlen
  have hhead : c.isWhitespace = false := by
    by_contra hws
    have hws' : c.isWhitespace = true := by
      revert hws
      cases c.isWhitespace <;> simp
    have hlt : ((dropLeadingWs ((dropLeadingWs m.data).reverse)).reverse).length <
        m.data.length := by
      rw [hd]
      have h1 : dropLeadingWs (c :: l) = dropLeadingWs l := by simp [dropLeadingWs, hws']
      calc ((dropLeadingWs ((dropLeadingWs (c :: l)).reverse)).reverse).length
          = (dropLeadingWs ((dropLeadingWs l).reverse)).length := by
            rw [h1, List.length_reverse]
        _ ≤ (dropLeadingWs l).reverse.length := dropLeadingWs_length_le _
        _ = (dropLeadingWs l).length := List.length_reverse _
        _ ≤ l.length := dropLeadingWs_length_le _
        _ < (c :: l).length := by simp
    rw [hlen] at hlt
    exact absurd hlt (lt_irrefl _)
  have hdl : dropLeadingWs m.data = m.data := by
    rw [hd]
    exact dropLeadingWs_cons_of_not_ws c l hhead
  obtain ⟨c2, l2, hr⟩ : ∃ c2 l2, m.data.reverse = c2 :: l2 := by
    cases hrr : m.data.reverse with
    | nil =>
      rw [List.reverse_eq_nil_iff] at hrr
      exact absurd hrr hne
    | cons c2 l2 => exact ⟨c2, l2, rfl⟩
  have hlast : c2.isWhitespace = false := by
    by_contra hws
    have hws' : c2.isWhitespace = true := by
      revert hws
      cases c2.isWhitespace <;> simp
    have hlt : ((dropLeadingWs ((dropLeadingWs m.data).reverse)).reverse).length <
        m.data.length := by
      rw [hdl, hr]
      have h2 : dropLeadingWs (c2 :: l2) = dropLeadingWs l2 := by simp [dropLeadingWs, hws']
      calc ((dropLeadingWs (c2 :: l2)).reverse).length
          = (dropLeadingWs l2).length := by rw [h2, List.length_reverse]
        _ ≤ l2.length := dropLeadingWs_length_le _
        _ < (c2 :: l2).length := by simp
        _ = m.data.reverse.length := by rw [hr]
        _ = m.data.length := List.length_reverse _
    rw [hlen] at hlt
    exact absurd hlt (lt_irrefl _)
  constructor
  · unfold headNonWs
    rw [hd]
    simp [hhead]
  · unfold lastNonWs
    rw [hr]
    simp [hlast]

theorem validateConstrText_ok_of (n : ℕ) (s : String) (h1 : pyStrip s = s)
    (h2 : 1 ≤ strLength s) (h3 : strLength s ≤ n) :
    validateConstrText n s = Except.ok s := by
  unfold validateConstrText
  rw [h1, if_neg (by omega), if_neg (by omega)]

theorem validateConstrText_ok_val (n : ℕ) (s t : String)
    (h : validateConstrText n s = Except.ok t) : t = pyStrip s := by
  simp only [validateConstrText] at h
  split_ifs at h
  simpa using h.symm

theorem validateListAux_ok {α : Type} (f : α → Except String α) (l : List α)
    (h : ∀ x ∈ l, f x = Except.ok x) : validateListAux f l = Except.ok l := by
  induction l with
  | nil => rfl
  | cons x xs ih =>
    have hx := h x (List.mem_cons_self _ _)
    have hxs := ih (fun y hy => h y (List.mem_cons_of_mem _ hy))
    simp [validateListAux, hx, hxs]

theorem validateList_ok {α : Type} (f : α → Except String α) (minLen maxLen : ℕ)
    (l : List α) (hl : minLen ≤ l.length) (hu : l.length ≤ maxLen)
    (h : ∀ x ∈ l, f x = Except.ok x) :
    validateList f minLen maxLen l = Except.ok l := by
  unfold validateList
  rw [if_neg (by omega), if_neg (by omega)]
  exact validateListAux_ok f l h

theorem model_validate_ok_consensus (r v : CommitteeResult)
    (h : CommitteeResult.model_validate r = Except.ok v) :
    v.consensus = pyStrip r.consensus := by
  unfold CommitteeResult.model_validate at h
  cases h1 : validateConstrText 300 r.consensus with
  | error e => rw [h1] at h; simp at h
  | ok c =>
    rw [h1] at h
    cases h2 : validateList KeyPoint.model_validate 1 3 r.key_points with
    | error e => rw [h2] at h; simp at h
    | ok kps =>
      rw [h2] at h
      cases h3 : validateList Disagreement.model_validate 1 3 r.disagreements with
      | error e => rw [h3] at h; simp at h
      | ok ds =>
        rw [h3] at h
        cases h4 : validateList OpsGuidance.model_validate 3 3 r.ops_guidance with
        | error e => rw [h4] at h; simp at h
        | ok ops =>
          rw [h4] at h
          simp at h
          rw [← h]
          exact validateConstrText_ok_val 300 r.consensus c h1

theorem committeeResult_validate_ok (r : CommitteeResult)
    (h1 : validateConstrText 300 r.consensus = Except.ok r.consensus)
    (h2 : validateList KeyPoint.model_validate 1 3 r.key_points = Except.ok r.key_points)
    (h3 : validateList Disagreement.model_validate 1 3 r.disagreements =
      Except.ok r.disagreements)
    (h4 : validateList OpsGuidance.model_validate 3 3 r.ops_guidance =
      Except.ok r.ops_guidance) :
    CommitteeResult.model_validate r = Except.ok r := by
  unfold CommitteeResult.model_validate
  rw [h1, h2, h3, h4]

theorem agentValue_validate (a : AgentName) :
    validateConstrText 200 a.value = Except.ok a.value := by
  cases a <;> rfl

theorem minorityRepair_consensus (stances : List Stance) (r : CommitteeResult) :
    (ChairStub.minorityRepair stances r).consensus = r.consensus := by
  simp only [ChairStub.minorityRepair]
  split <;> split <;> rfl

theorem minorityRepair_of_ne_nil (stances : List Stance) (r : CommitteeResult)
    (h : r.disagreements ≠ []) : ChairStub.minorityRepair stances r = r := by
  simp only [ChairStub.minorityRepair]
  rw [if_neg]
  simp [List.isEmpty_iff, h]

theorem mem_dedupFirstAux (l : List String) (x : String) :
    ∀ seen : List String, x ∈ dedupFirstAux seen l → x ∈ l := by
  induction l with
  | nil =>
    intro seen h
    simp [dedupFirstAux] at h
  | cons y ys ih =>
    intro seen h
    simp only [dedupFirstAux] at h
    by_cases hy : y ∈ seen
    · rw [if_pos hy] at h
      exact List.mem_cons_of_mem _ (ih _ h)
    · rw [if_neg hy] at h
      rcases List.mem_cons.mp h with h | h
      · exact h ▸ List.mem_cons_self _ _
      · exact List.mem_cons_of_mem _ (ih _ h)

theorem mem_dedupFirst (l : List String) (x : String) (h : x ∈ dedupFirst l) : x ∈ l :=
  mem_dedupFirstAux l x [] h

theorem mem_insertAsc (a : String) (l : List String) (x : String)
    (h : x ∈ insertAsc a l) : x = a ∨ x ∈ l := by
  induction l with
  | nil => simpa [insertAsc] using h
  | cons y ys ih =>
    simp only [insertAsc] at h
    by_cases hc : strLe a y = true
    · rw [if_pos hc] at h
      rcases List.mem_cons.mp h with h | h
      · exact Or.inl h
      · exact Or.inr h
    · rw [if_neg hc] at h
      rcases List.mem_cons.mp h with h | h
      · exact Or.inr (h ▸ List.mem_cons_self _ _)
      · rcases ih h with h2 | h2
        · exact Or.inl h2
        · exact Or.inr (List.mem_cons_of_mem _ h2)

theorem mem_sortAsc (l : List String) (x : String) (h : x ∈ sortAsc l) : x ∈ l := by
  induction l with
  | nil => simp [sortAsc] at h
  | cons y ys ih =>
    have hs : sortAsc (y :: ys) = insertAsc y (sortAsc ys) := rfl
    rw [hs] at h
    rcases mem_insertAsc _ _ _ h with h2 | h2
    · exact h2 ▸ List.mem_cons_self _ _
    · exact List.mem_cons_of_mem _ (ih h2)

theorem insertAsc_length (a : String) (l : List String) :
    (insertAsc a l).length = l.length + 1 := by
  induction l with
  | nil => rfl
  | cons y ys ih =>
    simp only [insertAsc]
    by_cases hc : strLe a y = true
    · rw [if_pos hc]
      rfl
    · rw [if_neg hc]
      simp [ih]

theorem sortAsc_length (l : List String) : (sortAsc l).length = l.length := by
  induction l with
  | nil => rfl
  | cons y ys ih =>
    have hs : sortAsc (y :: ys) = insertAsc y (sortAsc ys) := rfl
    rw [hs, insertAsc_length, ih]
    rfl

theorem argmaxFoldl_mem (items : List (String × List String)) :
    ∀ (acc : Option (String × List String)) (it : String × List String),
      items.foldl
        (fun acc it =>
          match acc with
          | none => some it
          | some cur => if it.2.dedup.length > cur.2.dedup.length then some it else some cur)
        acc = some it →
      acc = some it ∨ it ∈ items := by
  induction items with
  | nil =>
    intro acc it h
    simp at h
    exact Or.inl (by rw [h])
  | cons x xs ih =>
    intro acc it h
    simp only [List.foldl_cons] at h
    rcases ih _ it h with h2 | h2
    · cases acc with
      | none =>
        simp at h2
        exact Or.inr (h2 ▸ List.mem_cons_self _ _)
      | some cur =>
        by_cases hc : x.2.dedup.length > cur.2.dedup.length
        · simp [hc] at h2
          exact Or.inr (h2 ▸ List.mem_cons_self _ _)
        · simp [hc] at h2
          exact Or.inl (by rw [h2])
    · exact Or.inr (List.mem_cons_of_mem _ h2)

theorem argmaxByDistinct_mem (items : List (String × List String))
    (it : String × List String) (h : argmaxByDistinct items = some it) : it ∈ items := by
  rcases argmaxFoldl_mem items none it h with h2 | h2
  · simp at h2
  · exact h2

theorem groupPairs_mem (pairs : List (String × String)) (it : String × List String)
    (h : it ∈ groupPairs pairs) :
    it.1 ∈ pairs.map Prod.fst ∧ ∀ x ∈ it.2, x ∈ pairs.map Prod.snd := by
  unfold groupPairs at h
  rw [List.mem_map] at h
  obtain ⟨k, hk, hkeq⟩ := h
  constructor
  · rw [← hkeq]
    exact mem_dedupFirst _ _ hk
  · intro x hx
    rw [← hkeq] at hx
    simp only at hx
    rw [List.mem_map] at hx
    obtain ⟨p, hp, hpe⟩ := hx
    rw [List.mem_filter] at hp
    rw [← hpe]
    exact List.mem_map_of_mem _ hp.1

theorem pairs_fst_mem (stances : List Stance) (f : Stance → List String) (e : String)
    (h : e ∈ (stances.flatMap
      (fun s => (f s).map (fun c => (c, s.agent_name.value)))).map Prod.fst) :
    ∃ s ∈ stances, e ∈ f s := by
  rw [List.mem_map] at h
  obtain ⟨p, hp, hpe⟩ := h
  rw [List.mem_flatMap] at hp
  obtain ⟨s, hs, hps⟩ := hp
  rw [List.mem_map] at hps
  obtain ⟨c, hc, hce⟩ := hps
  refine ⟨s, hs, ?_⟩
  rw [← hpe, ← hce]
  exact hc

theorem pairs_snd_value (stances : List Stance) (f : Stance → List String) (x : String)
    (h : x ∈ (stances.flatMap
      (fun s => (f s).map (fun c => (c, s.agent_name.value)))).map Prod.snd) :
    ∃ a : AgentName, x = a.value := by
  rw [List.mem_map] at h
  obtain ⟨p, hp, hpe⟩ := h
  rw [List.mem_flatMap] at hp
  obtain ⟨s, hs, hps⟩ := hp
  rw [List.mem_map] at hps
  obtain ⟨c, hc, hce⟩ := hps
  refine ⟨s.agent_name, ?_⟩
  rw [← hpe, ← hce]

theorem tagAgents_value (stances : List Stance) (t : RegimeTag) (x : String)
    (h : x ∈ tagAgents stances t) : ∃ a : AgentName, x = a.value := by
  unfold tagAgents at h
  rw [List.mem_map] at h
  obtain ⟨s, _, hse⟩ := h
  exact ⟨s.agent_name, hse.symm⟩

theorem orElseList_sources_mem (l : List String) (x : String)
    (h : x ∈ orElseList (l.take 5) ["unknown"]) : x = "unknown" ∨ x ∈ l := by
  unfold orElseList at h
  split at h
  · simp at h
    exact Or.inl h
  · exact Or.inr (List.mem_of_mem_take h)

theorem orElseList_sources_bounds (l : List String) :
    1 ≤ (orElseList (l.take 5) ["unknown"]).length ∧
    (orElseList (l.take 5) ["unknown"]).length ≤ 5 := by
  unfold orElseList
  split
  · simp
  · rename_i hne
    constructor
    · rcases hl : l.take 5 with _ | _
      · rw [hl] at hne
        simp at hne
      · simp [hl]
    · simp [List.length_take]

theorem shortTextOK_spec (s : String) (h : ShortTextOK s = true) :
    pyStrip s = s ∧ 1 ≤ strLength s ∧ strLength s ≤ 200 := by
  simp only [ShortTextOK, Bool.and_eq_true, decide_eq_true_eq] at h
  exact ⟨h.1.1, h.1.2, h.2⟩

theorem idTokenOK_spec (s : String) (h : IdTokenOK s = true) :
    pyStrip s = s ∧ 1 ≤ strLength s ∧ strLength s ≤ 60 := by
  simp only [IdTokenOK, Bool.and_eq_true, decide_eq_true_eq] at h
  exact ⟨h.1.1.1, h.1.1.2, h.1.2⟩

theorem stanceSchema_spec (s : Stance) (h : stanceSchemaValid s = true) :
    s.core_claims.length ≤ 3 ∧
    (∀ c ∈ s.core_claims, ShortTextOK c = true) ∧
    (∀ e ∈ s.evidence_ids, IdTokenOK e = true) := by
  simp only [stanceSchemaValid, Bool.and_eq_true, decide_eq_true_eq,
    List.all_eq_true] at h
  exact ⟨h.1.1.1.1.1.1.2, h.1.1.1.1.1.2, h.2⟩

theorem stripped_of_shortTextOK (s : String) (h : ShortTextOK s = true) :
    headNonWs s = true ∧ lastNonWs s = true := by
  obtain ⟨h1, h2, _⟩ := shortTextOK_spec s h
  apply stripped_head_last s h1
  intro hd
  rw [strLength] at h2
  rw [hd] at h2
  simp at h2

theorem majorityPoint_validate (t : RegimeTag) :
    validateConstrText 200 ("Majority regime tag: " ++ t.value ++ ".") =
      Except.ok ("Majority regime tag: " ++ t.value ++ ".") := by
  cases t <;> rfl

theorem source_entry_validate (x : String)
    (h : x = "unknown" ∨ x = "none" ∨ ∃ a : AgentName, x = a.value) :
    validateConstrText 200 x = Except.ok x := by
  rcases h with h | h | ⟨a, h⟩
  · rw [h]
    rfl
  · rw [h]
    rfl
  · rw [h]
    exact agentValue_validate a

theorem evidencePoint_validate (e : String)
    (h2 : 1 ≤ strLength e) (h3 : strLength e ≤ 60) :
    validateConstrText 200 ("Shared evidence focus: " ++ e ++ ".") =
      Except.ok ("Shared evidence focus: " ++ e ++ ".") := by
  apply validateConstrText_ok_of
  · apply pyStrip_eq_self_of
    · exact headNonWs_append _ _ (headNonWs_append _ _ (by rfl))
    · exact lastNonWs_append _ _ (by rfl)
  · rw [strLength_append, strLength_append]
    have he : strLength "Shared evidence focus: " = 23 := rfl
    have hd : strLength "." = 1 := rfl
    omega
  · rw [strLength_append, strLength_append]
    have he : strLength "Shared evidence focus: " = 23 := rfl
    have hd : strLength "." = 1 := rfl
    omega

theorem claimPoint_validate (c : String) (hok : ShortTextOK c = true)
    (h186 : strLength c ≤ 186) :
    validateConstrText 200 ("Shared claim: " ++ c) =
      Except.ok ("Shared claim: " ++ c) := by
  obtain ⟨h1, h2, _⟩ := shortTextOK_spec c hok
  obtain ⟨_, hlast⟩ := stripped_of_shortTextOK c hok
  apply validateConstrText_ok_of
  · apply pyStrip_eq_self_of
    · exact headNonWs_append _ _ (by rfl)
    · exact lastNonWs_append _ _ hlast
  · rw [strLength_append]
    omega
  · rw [strLength_append]
    have hp : strLength "Shared claim: " = 14 := rfl
    omega

theorem sharedPoint_mem (items : List (String × List String)) (mkPoint : String → String)
    (kp : KeyPoint)
    (h : kp ∈ (match argmaxByDistinct items with
      | some (e, agents) =>
        if 2 ≤ agents.dedup.length then
          [KeyPoint.mk (mkPoint e) ((sortAsc agents.dedup).take 5)]
        else []
      | none => ([] : List KeyPoint))) :
    ∃ e agents, (e, agents) ∈ items ∧ 2 ≤ agents.dedup.length ∧
      kp = KeyPoint.mk (mkPoint e) ((sortAsc agents.dedup).take 5) := by
  cases hm : argmaxByDistinct items with
  | none =>
    rw [hm] at h
    simp at h
  | some p =>
    obtain ⟨e, agents⟩ := p
    rw [hm] at h
    have h2 : kp ∈ (if 2 ≤ agents.dedup.length then
        [KeyPoint.mk (mkPoint e) ((sortAsc agents.dedup).take 5)]
      else []) := h
    by_cases hg : 2 ≤ agents.dedup.length
    · rw [if_pos hg] at h2
      simp at h2
      exact ⟨e, agents, argmaxByDistinct_mem _ _ hm, hg, h2⟩
    · rw [if_neg hg] at h2
      simp at h2

theorem keyPoint_item_validate (kp : KeyPoint)
    (hp : validateConstrText 200 kp.point = Except.ok kp.point)
    (hs : ∀ x ∈ kp.sources, validateConstrText 200 x = Except.ok x)
    (h1 : 1 ≤ kp.sources.length) (h5 : kp.sources.length ≤ 5) :
    KeyPoint.model_validate kp = Except.ok kp := by
  unfold KeyPoint.model_validate
  rw [hp, validateList_ok _ _ _ _ h1 h5 hs]

theorem buildKeyPoints_validate (stances : List Stance) (mt : Option RegimeTag)
    (hschema : ∀ s ∈ stances, stanceSchemaValid s = true)
    (hclaims : ∀ s ∈ stances, ∀ c ∈ s.core_claims, strLength c ≤ 186) :
    ∀ kp ∈ _build_key_points stances mt, KeyPoint.model_validate kp = Except.ok kp := by
  intro kp hkp
  by_cases hempty : stances.isEmpty = true
  · simp only [_build_key_points, if_pos hempty] at hkp
    simp at hkp
    rw [hkp]
    rfl
  · simp only [_build_key_points, if_neg hempty] at hkp
    have hkp2 := List.mem_of_mem_take hkp
    rcases List.mem_append.mp hkp2 with hA | hB
    · rcases List.mem_cons.mp hA with hF | hE
      · rw [hF]
        apply keyPoint_item_validate
        · exact majorityPoint_validate _
        · intro x hx
          rcases orElseList_sources_mem _ _ hx with hu | hm
          · exact source_entry_validate x (Or.inl hu)
          · obtain ⟨a, ha⟩ := tagAgents_value _ _ _ hm
            exact source_entry_validate x (Or.inr (Or.inr ⟨a, ha⟩))
        · exact (orElseList_sources_bounds _).1
        · exact (orElseList_sources_bounds _).2
      · obtain ⟨e, agents, hitems, hg, hkpe⟩ :=
          sharedPoint_mem
            (groupPairs (stances.flatMap
              (fun s => s.evidence_ids.map (fun ev => (ev, s.agent_name.value)))))
            (fun x => "Shared evidence focus: " ++ x ++ ".") kp hE
        obtain ⟨s, hsmem, hes⟩ :=
          pairs_fst_mem stances (fun s => s.evidence_ids) e (groupPairs_mem _ _ hitems).1
        have hid := (stanceSchema_spec s (hschema s hsmem)).2.2 e hes
        obtain ⟨_, hl1, hl60⟩ := idTokenOK_spec e hid
        rw [hkpe]
        apply keyPoint_item_validate
        · exact evidencePoint_validate e hl1 hl60
        · intro x hx
          have hx2 := List.mem_dedup.mp (mem_sortAsc _ _ (List.mem_of_mem_take hx))
          have hx3 := (groupPairs_mem _ _ hitems).2 x hx2
          obtain ⟨a, ha⟩ := pairs_snd_value stances (fun s => s.evidence_ids) x hx3
          exact source_entry_validate x (Or.inr (Or.inr ⟨a, ha⟩))
        · show 1 ≤ ((sortAsc agents.dedup).take 5).length
          rw [List.length_take, sortAsc_length]
          omega
        · show ((sortAsc agents.dedup).take 5).length ≤ 5
          rw [List.length_take]
          omega
    · obtain ⟨c, agents, hitems, hg, hkpe⟩ :=
        sharedPoint_mem
          (groupPairs (stances.flatMap
            (fun s => s.core_claims.map (fun cl => (cl, s.agent_name.value)))))
          (fun x => "Shared claim: " ++ x) kp hB
      obtain ⟨s, hsmem, hcs⟩ :=
        pairs_fst_mem stances (fun s => s.core_claims) c (groupPairs_mem _ _ hitems).1
      have hok := (stanceSchema_spec s (hschema s hsmem)).2.1 c hcs
      have h186 := hclaims s hsmem c hcs
      rw [hkpe]
      apply keyPoint_item_validate
      · exact claimPoint_validate c hok h186
      · intro x hx
        have hx2 := List.mem_dedup.mp (mem_sortAsc _ _ (List.mem_of_mem_take hx))
        have hx3 := (groupPairs_mem _ _ hitems).2 x hx2
        obtain ⟨a, ha⟩ := pairs_snd_value stances (fun s => s.core_claims) x hx3
        exact source_entry_validate x (Or.inr (Or.inr ⟨a, ha⟩))
      · show 1 ≤ ((sortAsc agents.dedup).take 5).length
        rw [List.length_take, sortAsc_length]
        omega
      · show ((sortAsc agents.dedup).take 5).length ≤ 5
        rw [List.length_take]
        omega

theorem rawResult_defensive (stances : List Stance) (h0 : ¬ stances.length = 0)
    (hgt : ((countTag stances .RISK_OFF : ℚ)) > ((stances.length : ℚ)) / 2) :
    ChairStub.rawResult stances =
      ⟨"Committee adopts a defensive posture and reduces risk exposure.",
        (_build_key_points stances (some (argmaxTag (countTag stances .RISK_ON)
          (countTag stances .NEUTRAL) (countTag stances .RISK_OFF)))).take 3,
        (_build_disagreements stances (countTag stances .RISK_ON)
          (countTag stances .NEUTRAL) (countTag stances .RISK_OFF)
          (some (argmaxTag (countTag stances .RISK_ON) (countTag stances .NEUTRAL)
            (countTag stances .RISK_OFF)))).take 3,
        [⟨.OK, "Keep exposure focused on resilience."⟩,
          ⟨.CAUTION, "Favor defensive positioning."⟩,
          ⟨.AVOID, "Avoid high-beta risk assets."⟩]⟩ := by
  simp only [ChairStub.rawResult, if_neg h0, if_pos hgt]

theorem rawResult_neutral (stances : List Stance) (h0 : ¬ stances.length = 0)
    (hgt : ¬ ((countTag stances .RISK_OFF : ℚ)) > ((stances.length : ℚ)) / 2) :
    ChairStub.rawResult stances =
      ⟨"Committee maintains a neutral posture with selective positioning.",
        (_build_key_points stances (some (argmaxTag (countTag stances .RISK_ON)
          (countTag stances .NEUTRAL) (countTag stances .RISK_OFF)))).take 3,
        (_build_disagreements stances (countTag stances .RISK_ON)
          (countTag stances .NEUTRAL) (countTag stances .RISK_OFF)
          (some (argmaxTag (countTag stances .RISK_ON) (countTag stances .NEUTRAL)
            (countTag stances .RISK_OFF)))).take 3,
        [⟨.OK, "Maintain balanced exposure."⟩,
          ⟨.CAUTION, "Keep risk limits tight."⟩,
          ⟨.AVOID, "Avoid aggressive leverage."⟩]⟩ := by
  simp only [ChairStub.rawResult, if_neg h0, if_neg hgt]

theorem rawResult_consensus_cases (stances : List Stance) :
    (ChairStub.rawResult stances).consensus =
        "No consensus can be formed due to missing stances." ∨
    (ChairStub.rawResult stances).consensus =
        "Committee adopts a defensive posture and reduces risk exposure." ∨
    (ChairStub.rawResult stances).consensus =
        "Committee maintains a neutral posture with selective positioning." := by
  by_cases h0 : stances.length = 0
  · have he : stances = [] := List.length_eq_zero.mp h0
    subst he
    exact Or.inl rfl
  · by_cases hgt : ((countTag stances .RISK_OFF : ℚ)) > ((stances.length : ℚ)) / 2
    · exact Or.inr (Or.inl (by rw [rawResult_defensive stances h0 hgt]))
    · exact Or.inr (Or.inr (by rw [rawResult_neutral stances h0 hgt]))

/-- Claim C7: for every stance list, any CommitteeResult returned by the
chair has a consensus containing no newline and at most one terminator
among period, exclamation mark and question mark, and the run never raises
the hard single-sentence ValueError — that validation branch is
unreachable (the only possible exception is the pydantic ValidationError
of the result construction). -/
theorem c7_consensus_single_sentence (stances : List Stance) :
    (∀ r, ChairStub.run stances = Except.ok r →
      ((r.consensus.toList.contains '\n') = false ∧ terminatorCount r.consensus ≤ 1)) ∧
    (∀ msg, ChairStub.run stances ≠ Except.error (ChairError.valueError msg)) := by
  cases hv : CommitteeResult.model_validate (ChairStub.rawResult stances) with
  | error e =>
    constructor
    · intro r hr
      simp only [ChairStub.run, hv] at hr
      simp at hr
    · intro msg hmsg
      simp only [ChairStub.run, hv] at hmsg
      simp at hmsg
  | ok v =>
    have hvc := model_validate_ok_consensus _ _ hv
    have hvt : v.consensus = "No consensus can be formed due to missing stances." ∨
        v.consensus = "Committee adopts a defensive posture and reduces risk exposure." ∨
        v.consensus = "Committee maintains a neutral posture with selective positioning." := by
      rcases rawResult_consensus_cases stances with h | h | h
      · exact Or.inl (by rw [hvc, h]; decide)
      · exact Or.inr (Or.inl (by rw [hvc, h]; decide))
      · exact Or.inr (Or.inr (by rw [hvc, h]; decide))
    have hrc := minorityRepair_consensus stances v
    constructor
    · intro r hr
      simp only [ChairStub.run, hv] at hr
      rcases hvt with h | h | h <;>
      · rw [if_neg (by rw [hrc, h]; decide), if_neg (by rw [hrc, h]; decide)] at hr
        simp at hr
        rw [← hr]
        exact ⟨by rw [hrc, h]; decide, by rw [hrc, h]; decide⟩
    · intro msg hmsg
      simp only [ChairStub.run, hv] at hmsg
      rcases hvt with h | h | h <;>
      · rw [if_neg (by rw [hrc, h]; decide), if_neg (by rw [hrc, h]; decide)] at hmsg
        simp at hmsg

/-- Witness for C7 at the empty stance list. -/
theorem c7_consensus_single_sentence_witness :
    ((ChairStub.body []).consensus.toList.contains '\n') = false ∧
    terminatorCount (ChairStub.body []).consensus ≤ 1 :=
  (c7_consensus_single_sentence []).1 (ChairStub.body []) rfl

theorem disagreement_item_validate (d : Disagreement)
    (h1 : validateConstrText 200 d.topic = Except.ok d.topic)
    (h2 : validateConstrText 200 d.majority = Except.ok d.majority)
    (h3 : validateConstrText 200 d.minority = Except.ok d.minority)
    (h4 : validateList (validateConstrText 200) 1 5 d.minority_agents =
      Except.ok d.minority_agents)
    (h5 : validateConstrText 200 d.why_it_matters = Except.ok d.why_it_matters) :
    Disagreement.model_validate d = Except.ok d := by
  unfold Disagreement.model_validate
  rw [h1, h2, h3, h4, h5]

theorem buildKeyPoints_ne_nil (stances : List Stance) (mt : Option RegimeTag) :
    _build_key_points stances mt ≠ [] := by
  simp only [_build_key_points]
  split
  · simp
  · simp

/-- Counterexample to C6 as stated: three risk-off stances and one neutral
stance where two agents share a 194-character core claim; the derived
"Shared claim" key point then exceeds the 200-character ShortText limit
and `ChairStub.run` raises a pydantic ValidationError instead of returning
the defensive consensus. -/
theorem c6_counterexample_long_shared_claim :
    c6CounterStances.length = 4 ∧
    countTag c6CounterStances .RISK_OFF = 3 ∧
    countTag c6CounterStances .NEUTRAL = 1 ∧
    ChairStub.run c6CounterStances =
      Except.error (ChairError.validationError
        "String should have at most max_length characters") := by
  refine ⟨rfl, by decide, by decide, ?_⟩
  have h0 : ¬ c6CounterStances.length = 0 := by decide
  have hgt : ((countTag c6CounterStances .RISK_OFF : ℚ)) >
      ((c6CounterStances.length : ℚ)) / 2 := by
    have h1 : countTag c6CounterStances .RISK_OFF = 3 := by decide
    have h2 : c6CounterStances.length = 4 := rfl
    rw [h1, h2]
    norm_num
  have hraw := rawResult_defensive c6CounterStances h0 hgt
  simp only [ChairStub.run]
  rw [hraw]
  rfl

/-- Claim C6 (amended): for any four-stance list with three risk-off votes
and one neutral vote whose stances are schema-valid and whose core claims
are at most 186 characters (so every derived key point fits the
200-character result schema and validation is the identity), the chair
returns the defensive-posture consensus template and the disagreements are
exactly one entry with majority RISK_OFF and minority NEUTRAL. -/
theorem c6_three_risk_off_one_neutral (stances : List Stance)
    (hlen : stances.length = 4)
    (hoff : countTag stances .RISK_OFF = 3)
    (hneu : countTag stances .NEUTRAL = 1)
    (hschema : ∀ s ∈ stances, stanceSchemaValid s = true)
    (hclaims : ∀ s ∈ stances, ∀ c ∈ s.core_claims, strLength c ≤ 186) :
    ChairStub.run stances = Except.ok (ChairStub.body stances) ∧
    (ChairStub.body stances).consensus =
      "Committee adopts a defensive posture and reduces risk exposure." ∧
    ∃ entry : Disagreement,
      (ChairStub.body stances).disagreements = [entry] ∧
      entry.majority = "RISK_OFF" ∧ entry.minority = "NEUTRAL" := by
  have hon : countTag stances .RISK_ON = 0 := by
    have hp := countTag_partition stances
    omega
  have h0 : ¬ stances.length = 0 := by omega
  have hgt : ((countTag stances .RISK_OFF : ℚ)) > ((stances.length : ℚ)) / 2 := by
    rw [hoff, hlen]
    norm_num
  have hmaj : argmaxTag (countTag stances .RISK_ON) (countTag stances .NEUTRAL)
      (countTag stances .RISK_OFF) = .RISK_OFF := by
    rw [hon, hneu, hoff]
    decide
  have hag : (tagAgents stances .NEUTRAL).length = 1 := by
    simpa [tagAgents] using hneu
  have htakeAg : (tagAgents stances .NEUTRAL).take 5 = tagAgents stances .NEUTRAL :=
    List.take_of_length_le (by omega)
  have hagne : ¬ (tagAgents stances .NEUTRAL).isEmpty = true := by
    intro h
    rw [List.isEmpty_iff] at h
    rw [h] at hag
    simp at hag
  have hdis : _build_disagreements stances (countTag stances .RISK_ON)
      (countTag stances .NEUTRAL) (countTag stances .RISK_OFF)
      (some (argmaxTag (countTag stances .RISK_ON) (countTag stances .NEUTRAL)
        (countTag stances .RISK_OFF))) =
      [⟨"Regime tags", "RISK_OFF", "NEUTRAL", tagAgents stances .NEUTRAL,
        "Minority risk regime can change positioning boundaries."⟩] := by
    rw [hmaj, hon, hneu, hoff]
    simp only [_build_disagreements]
    norm_num
    rw [htakeAg]
    simp [orElseList, hagne, RegimeTag.value]
  have hraw : ChairStub.rawResult stances =
      ⟨"Committee adopts a defensive posture and reduces risk exposure.",
        (_build_key_points stances (some (argmaxTag (countTag stances .RISK_ON)
          (countTag stances .NEUTRAL) (countTag stances .RISK_OFF)))).take 3,
        [⟨"Regime tags", "RISK_OFF", "NEUTRAL", tagAgents stances .NEUTRAL,
          "Minority risk regime can change positioning boundaries."⟩],
        [⟨.OK, "Keep exposure focused on resilience."⟩,
          ⟨.CAUTION, "Favor defensive positioning."⟩,
          ⟨.AVOID, "Avoid high-beta risk assets."⟩]⟩ := by
    rw [rawResult_defensive stances h0 hgt, hdis]
    rfl
  have hkpitems : ∀ kp ∈ (_build_key_points stances (some (argmaxTag
      (countTag stances .RISK_ON) (countTag stances .NEUTRAL)
      (countTag stances .RISK_OFF)))).take 3,
      KeyPoint.model_validate kp = Except.ok kp :=
    fun kp hkp =>
      buildKeyPoints_validate stances _ hschema hclaims kp (List.mem_of_mem_take hkp)
  have hkplen1 : 1 ≤ ((_build_key_points stances (some (argmaxTag
      (countTag stances .RISK_ON) (countTag stances .NEUTRAL)
      (countTag stances .RISK_OFF)))).take 3).length := by
    rw [List.length_take]
    have := List.length_pos.mpr (buildKeyPoints_ne_nil stances
      (some (argmaxTag (countTag stances .RISK_ON) (countTag stances .NEUTRAL)
        (countTag stances .RISK_OFF))))
    omega
  have hkplen3 : ((_build_key_points stances (some (argmaxTag
      (countTag stances .RISK_ON) (countTag stances .NEUTRAL)
      (countTag stances .RISK_OFF)))).take 3).length ≤ 3 := by
    rw [List.length_take]
    omega
  have hkpval := validateList_ok KeyPoint.model_validate 1 3 _ hkplen1 hkplen3 hkpitems
  have hagsval : validateList (validateConstrText 200) 1 5
      (tagAgents stances .NEUTRAL) = Except.ok (tagAgents stances .NEUTRAL) :=
    validateList_ok _ _ _ _ (by omega) (by omega)
      (fun x hx => source_entry_validate x (Or.inr (Or.inr (tagAgents_value _ _ _ hx))))
  have hdisval : validateList Disagreement.model_validate 1 3
      ([⟨"Regime tags", "RISK_OFF", "NEUTRAL", tagAgents stances .NEUTRAL,
        "Minority risk regime can change positioning boundaries."⟩] :
        List Disagreement) =
      Except.ok [⟨"Regime tags", "RISK_OFF", "NEUTRAL", tagAgents stances .NEUTRAL,
        "Minority risk regime can change positioning boundaries."⟩] := by
    apply validateList_ok _ _ _ _ (by simp) (by simp)
    intro d hd
    simp at hd
    rw [hd]
    exact disagreement_item_validate _ rfl rfl rfl hagsval rfl
  have hval : CommitteeResult.model_validate (ChairStub.rawResult stances) =
      Except.ok (ChairStub.rawResult stances) := by
    rw [hraw]
    exact committeeResult_validate_ok _ rfl hkpval hdisval rfl
  have hbody : ChairStub.body stances =
      ⟨"Committee adopts a defensive posture and reduces risk exposure.",
        (_build_key_points stances (some (argmaxTag (countTag stances .RISK_ON)
          (countTag stances .NEUTRAL) (countTag stances .RISK_OFF)))).take 3,
        [⟨"Regime tags", "RISK_OFF", "NEUTRAL", tagAgents stances .NEUTRAL,
          "Minority risk regime can change positioning boundaries."⟩],
        [⟨.OK, "Keep exposure focused on resilience."⟩,
          ⟨.CAUTION, "Favor defensive positioning."⟩,
          ⟨.AVOID, "Avoid high-beta risk assets."⟩]⟩ := by
    show ChairStub.minorityRepair stances (ChairStub.rawResult stances) = _
    rw [hraw]
    rw [minorityRepair_of_ne_nil _ _ (by simp)]
  refine ⟨?_, by rw [hbody], ?_⟩
  · simp only [ChairStub.run, hval]
    have hbc : (ChairStub.minorityRepair stances (ChairStub.rawResult stances)).consensus =
        "Committee adopts a defensive posture and reduces risk exposure." := by
      show (ChairStub.body stances).consensus = _
      rw [hbody]
    rw [if_neg (by rw [hbc]; decide), if_neg (by rw [hbc]; decide)]
    rfl
  · exact ⟨⟨"Regime tags", "RISK_OFF", "NEUTRAL", tagAgents stances .NEUTRAL,
      "Minority risk regime can change positioning boundaries."⟩,
      by rw [hbody], rfl, rfl⟩

/-- Witness for the amended C6 at a concrete four-stance list (three
risk-off, one neutral, schema-valid short claims). -/
theorem c6_three_risk_off_one_neutral_witness :
    (ChairStub.body
      [{ agent_name := .MACRO, core_claims := ["us rates stay high"], korean_comment := "k",
         raw_response := none, regime_tag := .RISK_OFF,
         evidence_ids := ["snapshot.watchlist"], confidence := .LOW },
       { agent_name := .FLOW, core_claims := ["flows keep weakening"], korean_comment := "k",
         raw_response := none, regime_tag := .RISK_OFF,
         evidence_ids := ["snapshot.watchlist"], confidence := .LOW },
       { agent_name := .SECTOR, core_claims := ["sectors remain soft"], korean_comment := "k",
         raw_response := none, regime_tag := .RISK_OFF,
         evidence_ids := ["snapshot.watchlist"], confidence := .LOW },
       { agent_name := .RISK, core_claims := ["risk is balanced"], korean_comment := "k",
         raw_response := none, regime_tag := .NEUTRAL,
         evidence_ids := ["snapshot.watchlist"], confidence := .LOW }]).consensus =
      "Committee adopts a defensive posture and reduces risk exposure." :=
  (c6_three_risk_off_one_neutral _ (by decide) (by decide) (by decide)
    (by decide) (by decide)).2.1
